import Mathlib

/-!
Shallow embedding of the normalization / webhook-translation layer of
`src/main.py` (a Dialogflow CX MCP server).

Modelling conventions:
* Python JSON-compatible values are the inductive `Json` below.  Python
  dicts are association lists `List (String × Json)` read through
  `List.lookup` (first occurrence wins; Python dicts have unique keys, so
  insertion order plus first-match lookup is faithful).  Dict insertion
  (`d[k] = v`) replaces in place or appends at the end, as in Python.
* Python numbers are modelled as `Int` (the claims only ever copy numeric
  values verbatim, never compute with them).
* `str(x)` on backend protobuf objects is modelled as an explicit
  `str_repr` field carried by the embedded value.
* Exceptions are modelled with `Except String`; a caught exception turns
  into the `{error: ...}` object exactly where the source's `try/except`
  does.  Exception message texts are abbreviated to their exception class
  name; no claim depends on the message wording.
* The results of external collaborators (the remote Dialogflow RPC,
  `json.loads`, file reads, base64 decoding) are passed in as parameters
  (`Except`/`Option` values), since those live outside this repository.
-/

/-- A JSON-compatible Python value. Objects are insertion-ordered
association lists, like Python dicts. -/
inductive Json where
  | null : Json
  | bool : Bool → Json
  | num : Int → Json
  | str : String → Json
  | arr : List Json → Json
  | obj : List (String × Json) → Json

/-- Field access on a JSON object: `some v` when `j` is an object with key
`k`, `none` otherwise. Statement-side helper for reading results. -/
def getField (j : Json) (k : String) : Option Json :=
  match j with
  | Json.obj kvs => List.lookup k kvs
  | _ => none

/-- Python dict assignment `d[k] = v`: replace the value at the first
occurrence of `k` keeping its position, or append `(k, v)` at the end. -/
def setEntry : List (String × Json) → String → Json → List (String × Json)
  | [], k, v => [(k, v)]
  | (k', v') :: rest, k, v =>
      if k' == k then (k, v) :: rest else (k', v') :: setEntry rest k v

/-- `j[k] = v` when `j` is a JSON object (the only case the source
exercises). -/
def objSet (j : Json) (k : String) (v : Json) : Json :=
  match j with
  | Json.obj kvs => Json.obj (setEntry kvs k v)
  | _ => j

/-- The `{"error": msg}` result produced by the source's `except` blocks
and not-initialized guards. -/
def errorJson (msg : String) : Json :=
  Json.obj [("error", Json.str msg)]

/-- Python `for x in v`: lists iterate their elements, strings iterate
their one-character substrings, dicts iterate their keys; numbers,
booleans and `None` raise `TypeError` (modelled as `none`). -/
def iterElems : Json → Option (List Json)
  | Json.arr xs => some xs
  | Json.str s => some (s.toList.map (fun c => Json.str (String.mk [c])))
  | Json.obj kvs => some (kvs.map (fun kv => Json.str kv.1))
  | _ => none

/-- One iteration of the message loop of `create_webhook_response`
(src/main.py lines 451-466): a raw string becomes
`{"text": {"text": [s]}}`; a dict with a `"text"` key wraps the raw value
as `{"text": {"text": [value]}}`; a dict with a `"payload"` key passes the
payload through; anything else is dropped. -/
def normalizeMsg : Json → Option Json
  | Json.str s =>
      some (Json.obj [("text", Json.obj [("text", Json.arr [Json.str s])])])
  | Json.obj kvs =>
      match List.lookup "text" kvs with
      | some v =>
          some (Json.obj [("text", Json.obj [("text", Json.arr [v])])])
      | none =>
          match List.lookup "payload" kvs with
          | some p => some (Json.obj [("payload", p)])
          | none => none
  | _ => none

/-- The fields of the webhook response other than the message list:
`fulfillmentResponse` always first (holding `messages` when `msgs` is
`some`), then `sessionInfo`, `targetPage`, `targetFlow` exactly when the
corresponding input keys are present (src/main.py lines 446, 468-480). -/
def webhookOuter (fr : List (String × Json)) (msgs : Option (List Json)) :
    List (String × Json) :=
  [("fulfillmentResponse", Json.obj
      (match msgs with
       | none => []
       | some ms => [("messages", Json.arr ms)]))]
  ++ (match List.lookup "parameter_updates" fr with
      | some p => [("sessionInfo", Json.obj [("parameters", p)])]
      | none => [])
  ++ (match List.lookup "target_page" fr with
      | some t => [("targetPage", t)]
      | none => [])
  ++ (match List.lookup "target_flow" fr with
      | some t => [("targetFlow", t)]
      | none => [])

/-- `create_webhook_response` (src/main.py lines 432-484).  The input is
the `fulfillment_response` dict.  When `"messages"` is present its value
is iterated (a non-iterable value raises `TypeError`, caught by the
surrounding `except` into an error object); each element goes through
`normalizeMsg`.  Note that `fulfillmentResponse.messages` is initialised
to `[]` as soon as the `"messages"` key is present, before any iteration. -/
def create_webhook_response (fr : List (String × Json)) : Json :=
  match List.lookup "messages" fr with
  | none => Json.obj (webhookOuter fr none)
  | some mv =>
      match iterElems mv with
      | none => errorJson "Error creating webhook response: TypeError"
      | some elems =>
          Json.obj (webhookOuter fr (some (elems.filterMap normalizeMsg)))

/-- A Dialogflow protobuf parameter value as the source probes it.
`_extract_parameters` checks `hasattr(value, a)` for each accessor `a` in
turn; an accessor the value does not expose is `none`.  `str_repr` is the
value's `str(...)` form, used by the fallback branch. -/
structure TypedValue where
  string_value : Option String
  number_value : Option Int
  bool_value : Option Bool
  struct_value : Option (List (String × Json))
  str_repr : String

/-- The per-value body of `_extract_parameters` (src/main.py lines
233-243): probe the accessors in the fixed order string, number, bool,
struct, and emit the first exposed one; otherwise fall back to `str(value)`. -/
def extractValue (v : TypedValue) : Json :=
  match v.string_value with
  | some s => Json.str s
  | none =>
      match v.number_value with
      | some n => Json.num n
      | none =>
          match v.bool_value with
          | some b => Json.bool b
          | none =>
              match v.struct_value with
              | some st => Json.obj st
              | none => Json.str v.str_repr

/-- `DialogflowCXClient._extract_parameters` (src/main.py lines 226-245).
An absent (`None`) or empty parameter map is falsy in Python, so both are
modelled by the empty association list. -/
def extract_parameters (parameters : List (String × TypedValue)) :
    List (String × Json) :=
  if parameters.isEmpty then []
  else parameters.map (fun kv => (kv.1, extractValue kv.2))

/-- A response message of the backend, as `_process_response` reads it.
`text` is `some lines` when `msg.text` is truthy (the text submessage is
set), `payload` likewise; `str_repr` is `str(msg)`, scanned for the
`end_interaction` substring. -/
structure ResponseMessage where
  text : Option (List String)
  payload : Option (List (String × Json))
  str_repr : String

/-- A matched intent: only its display name is read by the source. -/
structure Intent where
  display_name : String

/-- `query_result.match` of a detect-intent response (the field is called
`match`, a reserved word in Lean). -/
structure MatchInfo where
  intent : Option Intent
  confidence : Int

/-- The `query_result` of a `DetectIntentResponse`, restricted to the
fields `_process_response` reads. -/
structure QueryResult where
  response_messages : List ResponseMessage
  match_info : MatchInfo
  parameters : List (String × TypedValue)
  current_page_display_name : String
  transcript : String

/-- A backend `DetectIntentResponse`. -/
structure DetectIntentResponse where
  query_result : QueryResult

/-- Python `"end_interaction" in str(msg)`: substring containment. -/
def strContains (s pat : String) : Bool :=
  decide (pat.toList <:+: s.toList)

/-- One iteration of the message loop of `_process_response` (src/main.py
lines 196-201): a message with truthy `text` yields a text entry joining
the lines with a newline; otherwise truthy `payload` yields a payload
entry; otherwise the message is skipped. -/
def process_message (msg : ResponseMessage) : Option Json :=
  match msg.text with
  | some lines =>
      some (Json.obj [("type", Json.str "text"),
                      ("content", Json.str (String.intercalate "\n" lines))])
  | none =>
      match msg.payload with
      | some p =>
          some (Json.obj [("type", Json.str "payload"),
                          ("content", Json.obj p)])
      | none => none

/-- `DialogflowCXClient._process_response` (src/main.py lines 183-224).
`intent` is the intent-info dict when `query_result.match.intent` is
truthy and Python `None` otherwise; `end_interaction` is the substring
scan of `str(msg)` over all response messages. -/
def process_response (response : DetectIntentResponse) : Json :=
  let qr := response.query_result
  Json.obj [
    ("messages", Json.arr (qr.response_messages.filterMap process_message)),
    ("intent",
      match qr.match_info.intent with
      | some i => Json.obj [("name", Json.str i.display_name),
                            ("confidence", Json.num qr.match_info.confidence)]
      | none => Json.null),
    ("parameters", Json.obj (extract_parameters qr.parameters)),
    ("current_page", Json.str qr.current_page_display_name),
    ("transcript", Json.str qr.transcript),
    ("end_interaction", Json.bool
      (qr.response_messages.any (fun msg => strContains msg.str_repr "end_interaction")))
  ]

/-- One candidate of a `MatchIntentResponse`, restricted to the fields
`match_intent` reads. -/
structure MatchCandidate where
  intent : Option Intent
  confidence : Int
  parameters : List (String × TypedValue)

/-- A backend `MatchIntentResponse`.  The source field is called
`matches`, a reserved word in Lean, hence `matches_list`. -/
structure MatchIntentResponse where
  matches_list : List MatchCandidate
  current_page_display_name : String

/-- The normalization of `DialogflowCXClient.match_intent` (src/main.py
lines 171-181): one entry per candidate, in order; `"No intent"` when the
candidate's intent is falsy; confidence copied; parameters via
`extract_parameters`. -/
def match_intent_result (response : MatchIntentResponse) : Json :=
  Json.obj [
    ("matches", Json.arr (response.matches_list.map (fun m =>
      Json.obj [
        ("intent", Json.str
          (match m.intent with
           | some i => i.display_name
           | none => "No intent")),
        ("confidence", Json.num m.confidence),
        ("parameters", Json.obj (extract_parameters m.parameters))]))),
    ("current_page", Json.str response.current_page_display_name)
  ]

/-- The session id actually used by a tool: `if not session_id:
session_id = str(uuid.uuid4())` — `None` and the empty string are falsy,
so both are replaced by the freshly generated UUID string. -/
def resolveSessionId (session_id : Option String) (fresh_uuid : String) : String :=
  match session_id with
  | none => fresh_uuid
  | some s => if s = "" then fresh_uuid else s

/-- The `detect_intent` MCP tool (src/main.py lines 277-309).  The global
`DIALOGFLOW_CLIENT` is `none` before `initialize_dialogflow` succeeds; the
remote RPC outcome is a parameter (`Except.error e` when the call raised).
On success the raw response goes through `_process_response` and
`session_id` is added to the result. -/
def detect_intent_tool (dialogflow_client : Option Unit) (text : String)
    (session_id : Option String) (fresh_uuid : String)
    (remote : Except String DetectIntentResponse) : Json :=
  match dialogflow_client, text with
  | none, _ =>
      errorJson "Dialogflow CX client not initialized. Call initialize_dialogflow first."
  | some _, _ =>
      let sid := resolveSessionId session_id fresh_uuid
      match remote with
      | Except.error e => errorJson ("Error detecting intent: " ++ e)
      | Except.ok resp => objSet (process_response resp) "session_id" (Json.str sid)

/-- The `detect_intent_from_audio` MCP tool (src/main.py lines 310-352).
The uninitialized-client guard runs before the file is read; the file read
and the remote RPC are parameters. -/
def detect_intent_from_audio_tool (dialogflow_client : Option Unit)
    (session_id : Option String) (fresh_uuid : String)
    (file_read : Except String String)
    (remote : Except String DetectIntentResponse) : Json :=
  match dialogflow_client with
  | none =>
      errorJson "Dialogflow CX client not initialized. Call initialize_dialogflow first."
  | some _ =>
      let sid := resolveSessionId session_id fresh_uuid
      match file_read with
      | Except.error e => errorJson ("Error detecting intent from audio: " ++ e)
      | Except.ok _ =>
          match remote with
          | Except.error e => errorJson ("Error detecting intent from audio: " ++ e)
          | Except.ok resp =>
              objSet (process_response resp) "session_id" (Json.str sid)

/-- The `detect_intent_from_base64` MCP tool (src/main.py lines 354-395).
The uninitialized-client guard runs before the base64 decode; the decode
and the remote RPC are parameters. -/
def detect_intent_from_base64_tool (dialogflow_client : Option Unit)
    (session_id : Option String) (fresh_uuid : String)
    (decode : Except String String)
    (remote : Except String DetectIntentResponse) : Json :=
  match dialogflow_client with
  | none =>
      errorJson "Dialogflow CX client not initialized. Call initialize_dialogflow first."
  | some _ =>
      let sid := resolveSessionId session_id fresh_uuid
      match decode with
      | Except.error e => errorJson ("Error detecting intent from base64 audio: " ++ e)
      | Except.ok _ =>
          match remote with
          | Except.error e => errorJson ("Error detecting intent from base64 audio: " ++ e)
          | Except.ok resp =>
              objSet (process_response resp) "session_id" (Json.str sid)

/-- The `match_intent` MCP tool (src/main.py lines 398-430), with the same
guard and remote-call parameter as `detect_intent_tool`; the successful
result is the normalization of lines 171-181 plus `session_id`. -/
def match_intent_tool (dialogflow_client : Option Unit) (text : String)
    (session_id : Option String) (fresh_uuid : String)
    (remote : Except String MatchIntentResponse) : Json :=
  match dialogflow_client, text with
  | none, _ =>
      errorJson "Dialogflow CX client not initialized. Call initialize_dialogflow first."
  | some _, _ =>
      let sid := resolveSessionId session_id fresh_uuid
      match remote with
      | Except.error e => errorJson ("Error matching intent: " ++ e)
      | Except.ok resp => objSet (match_intent_result resp) "session_id" (Json.str sid)

/-- Python `.get(k, default)`: defined on dicts only; any other receiver
raises `AttributeError`. -/
def pyGet (j : Json) (k : String) (default : Json) : Except String Json :=
  match j with
  | Json.obj kvs => Except.ok ((List.lookup k kvs).getD default)
  | _ => Except.error "AttributeError"

/-- Python `k in j` for a string key `k`: key membership on dicts,
substring containment on strings, element membership on lists; `TypeError`
on numbers, booleans and `None`. -/
def pyContainsKey (j : Json) (k : String) : Except String Bool :=
  match j with
  | Json.obj kvs => Except.ok (List.lookup k kvs).isSome
  | Json.str s => Except.ok (strContains s k)
  | Json.arr xs => Except.ok (xs.any (fun e =>
      match e with
      | Json.str t => t == k
      | _ => false))
  | _ => Except.error "TypeError"

/-- Python `j[k]` for a string key `k`: dict lookup (`KeyError` when the
key is missing); every non-dict receiver raises `TypeError`. -/
def pyIndex (j : Json) (k : String) : Except String Json :=
  match j with
  | Json.obj kvs =>
      match List.lookup k kvs with
      | some v => Except.ok v
      | none => Except.error "KeyError"
  | _ => Except.error "TypeError"

/-- One iteration of the message loop of `parse_webhook_request`
(src/main.py lines 510-514): `"text" in msg` selects the text branch
(reading `msg["text"]["text"]`), else `"payload" in msg` selects the
payload branch, else the element is skipped (`Except.ok none`).  Any of
the Python operations may raise. -/
def parseMessage (msg : Json) : Except String (Option Json) := do
  let hasText ← pyContainsKey msg "text"
  if hasText then
    let t ← pyIndex msg "text"
    let tt ← pyIndex t "text"
    Except.ok (some (Json.obj [("type", Json.str "text"), ("content", tt)]))
  else
    let hasPayload ← pyContainsKey msg "payload"
    if hasPayload then
      let p ← pyIndex msg "payload"
      Except.ok (some (Json.obj [("type", Json.str "payload"), ("content", p)]))
    else
      Except.ok none

/-- The message loop of `parse_webhook_request`, appending the parsed
entries in order. -/
def parseMessages : List Json → Except String (List Json)
  | [] => Except.ok []
  | m :: rest => do
    let r ← parseMessage m
    let rs ← parseMessages rest
    match r with
    | some j => Except.ok (j :: rs)
    | none => Except.ok rs

/-- The body of `parse_webhook_request` after a successful `json.loads`
(src/main.py lines 497-523), with every Python operation that can raise in
the `Except` monad, in source order. -/
def parse_webhook_body (request_data : Json) : Except String Json := do
  let session ← pyGet request_data "sessionInfo" (Json.obj [])
  let intent ← pyGet request_data "intentInfo" (Json.obj [])
  let params ← pyGet session "parameters" (Json.obj [])
  let page_info ← pyGet request_data "pageInfo" (Json.obj [])
  let current_page ← pyGet page_info "displayName" (Json.str "")
  let msgs_src ← pyGet request_data "messages" (Json.arr [])
  let elems ←
    match iterElems msgs_src with
    | some es => Except.ok es
    | none => Except.error "TypeError"
  let msgs ← parseMessages elems
  let session_id ← pyGet session "session" (Json.str "")
  let intent_name ← pyGet intent "displayName" (Json.str "")
  Except.ok (Json.obj [
    ("session_id", session_id),
    ("intent_name", intent_name),
    ("parameters", params),
    ("current_page", current_page),
    ("messages", Json.arr msgs),
    ("raw_request", request_data)
  ])

/-- The `parse_webhook_request` MCP tool (src/main.py lines 486-525).  The
outcome of `json.loads` (an external library call) is the parameter:
`none` when the input string is not valid JSON (a `JSONDecodeError`,
caught by the `except` into an error object), `some j` for the parsed
value.  Any exception inside the body is caught into an error object. -/
def parse_webhook_request (loads_result : Option Json) : Json :=
  match loads_result with
  | none => errorJson "Error parsing webhook request: JSONDecodeError"
  | some request_data =>
      match parse_webhook_body request_data with
      | Except.ok r => r
      | Except.error e => errorJson ("Error parsing webhook request: " ++ e)

/-! ## Helper lemmas -/

theorem extract_parameters_eq_map (params : List (String × TypedValue)) :
    extract_parameters params = params.map (fun kv => (kv.1, extractValue kv.2)) := by
  unfold extract_parameters
  cases he : params.isEmpty with
  | true => rw [List.isEmpty_iff] at he; subst he; rfl
  | false => simp

theorem lookup_map_snd (f : TypedValue → Json) (l : List (String × TypedValue))
    (k : String) (v : TypedValue) (h : List.lookup k l = some v) :
    List.lookup k (l.map (fun kv => (kv.1, f kv.2))) = some (f v) := by
  induction l with
  | nil => simp at h
  | cons hd tl ih =>
      rw [List.map_cons, List.lookup_cons]
      rw [List.lookup_cons] at h
      revert h
      cases hk : k == hd.1 with
      | true => intro h; simp at h ⊢; simp [h]
      | false => intro h; simp at h ⊢; exact ih h

theorem lookup_extract_parameters (params : List (String × TypedValue)) (k : String)
    (v : TypedValue) (h : List.lookup k params = some v) :
    List.lookup k (extract_parameters params) = some (extractValue v) := by
  rw [extract_parameters_eq_map]
  exact lookup_map_snd extractValue params k v h

theorem keys_extract_parameters (params : List (String × TypedValue)) :
    (extract_parameters params).map Prod.fst = params.map Prod.fst := by
  rw [extract_parameters_eq_map, List.map_map]
  rfl

/-! ## Claim theorems -/

/-- C1 counterexample: `create_webhook_response` on the input
`{"messages": []}` (messages supplied but the iteration is empty) emits
`fulfillmentResponse.messages` as an empty list, so the `messages` key is
not "present only if non-empty iteration occurred" and it is emitted as an
empty list. -/
theorem C1_counterexample :
    create_webhook_response [("messages", Json.arr [])] =
      Json.obj [("fulfillmentResponse", Json.obj [("messages", Json.arr [])])] := rfl

/-- C1 (amended): if the input has no `"messages"` key, the returned
`fulfillmentResponse` is the empty object (in particular it contains no
`"messages"` key), and `create_webhook_response` of the empty input is
`{"fulfillmentResponse": {}}`; when a `"messages"` key is supplied with an
iterable value, the `"messages"` key is always present and holds the list
of normalized descriptors, which may be empty. -/
theorem C1_messages_presence :
    (∀ fr : List (String × Json), List.lookup "messages" fr = none →
        getField (create_webhook_response fr) "fulfillmentResponse" =
          some (Json.obj [])) ∧
    create_webhook_response [] = Json.obj [("fulfillmentResponse", Json.obj [])] ∧
    (∀ (fr : List (String × Json)) (mv : Json) (elems : List Json),
        List.lookup "messages" fr = some mv → iterElems mv = some elems →
        getField (create_webhook_response fr) "fulfillmentResponse" =
          some (Json.obj [("messages",
            Json.arr (elems.filterMap normalizeMsg))])) := by
  refine ⟨?_, rfl, ?_⟩
  · intro fr h
    simp [create_webhook_response, webhookOuter, getField, h]
  · intro fr mv elems h1 h2
    simp [create_webhook_response, webhookOuter, getField, h1, h2]

/-- C1 witness: instantiating `C1_messages_presence` at concrete inputs:
an input without a `"messages"` key yields an empty `fulfillmentResponse`,
and an input with one descriptor yields the normalized singleton list. -/
theorem C1_messages_presence_witness :
    getField (create_webhook_response [("target_page", Json.str "p")])
        "fulfillmentResponse" = some (Json.obj []) ∧
    getField (create_webhook_response [("messages", Json.arr [Json.str "hi"])])
        "fulfillmentResponse" =
      some (Json.obj [("messages", Json.arr
        [Json.obj [("text", Json.obj [("text", Json.arr [Json.str "hi"])])]])]) :=
  ⟨C1_messages_presence.1 [("target_page", Json.str "p")] rfl,
   C1_messages_presence.2.2 [("messages", Json.arr [Json.str "hi"])]
     (Json.arr [Json.str "hi"]) [Json.str "hi"] rfl rfl⟩

/-- C4: a message descriptor that is a dict with a `"text"` key is emitted
as `{"text": {"text": [value]}}` with the raw value wrapped in a
single-element list (even when the value is itself a list); a raw string
descriptor `s` is emitted as `{"text": {"text": [s]}}`; and the emitted
message list of `create_webhook_response` is exactly the input descriptors
normalized this way, in order. -/
theorem C4_text_wrapping :
    (∀ (kvs : List (String × Json)) (v : Json), List.lookup "text" kvs = some v →
        normalizeMsg (Json.obj kvs) =
          some (Json.obj [("text", Json.obj [("text", Json.arr [v])])])) ∧
    (∀ s : String, normalizeMsg (Json.str s) =
        some (Json.obj [("text", Json.obj [("text", Json.arr [Json.str s])])])) ∧
    (∀ (fr : List (String × Json)) (elems : List Json),
        List.lookup "messages" fr = some (Json.arr elems) →
        getField (create_webhook_response fr) "fulfillmentResponse" =
          some (Json.obj [("messages",
            Json.arr (elems.filterMap normalizeMsg))])) := by
  refine ⟨?_, fun s => rfl, ?_⟩
  · intro kvs v h
    simp [normalizeMsg, h]
  · intro fr elems h
    simp [create_webhook_response, webhookOuter, getField, h, iterElems]

/-- C4 witness: a descriptor whose `"text"` value is already a list is
double-nested, and a raw string descriptor is single-wrapped. -/
theorem C4_text_wrapping_witness :
    normalizeMsg (Json.obj [("text", Json.arr [Json.str "a"])]) =
      some (Json.obj [("text", Json.obj
        [("text", Json.arr [Json.arr [Json.str "a"]])])]) ∧
    getField (create_webhook_response [("messages", Json.arr [Json.str "hello"])])
        "fulfillmentResponse" =
      some (Json.obj [("messages", Json.arr
        [Json.obj [("text", Json.obj [("text", Json.arr [Json.str "hello"])])]])]) :=
  ⟨C4_text_wrapping.1 [("text", Json.arr [Json.str "a"])] (Json.arr [Json.str "a"]) rfl,
   C4_text_wrapping.2.2 [("messages", Json.arr [Json.str "hello"])] [Json.str "hello"] rfl⟩

/-- C10: the output of `create_webhook_response` depends only on the
`"messages"`, `"parameter_updates"`, `"target_page"` and `"target_flow"`
fields of the input: two inputs that agree on those four lookups (present
with equal values, or both absent) produce equal outputs. -/
theorem C10_noninterference (a b : List (String × Json))
    (h1 : List.lookup "messages" a = List.lookup "messages" b)
    (h2 : List.lookup "parameter_updates" a = List.lookup "parameter_updates" b)
    (h3 : List.lookup "target_page" a = List.lookup "target_page" b)
    (h4 : List.lookup "target_flow" a = List.lookup "target_flow" b) :
    create_webhook_response a = create_webhook_response b := by
  unfold create_webhook_response webhookOuter
  rw [h1, h2, h3, h4]

/-- C10 witness: an input with extra unrelated keys produces the same
output as the input stripped to nothing (all four relevant fields absent
in both). -/
theorem C10_noninterference_witness :
    create_webhook_response [("extra", Json.str "ignored"), ("x", Json.num 3)] =
      create_webhook_response [] :=
  C10_noninterference [("extra", Json.str "ignored"), ("x", Json.num 3)] []
    rfl rfl rfl rfl

/-- C2: `_extract_parameters` emits, for every key of the input map, the
result of probing the associated typed value's accessors in the fixed
order string, number, bool, struct; the first exposed accessor wins, the
fallback is `str(value)`, and in particular a value exposing both a string
and a numeric accessor yields the string accessor's value. -/
theorem C2_extraction_precedence :
    (∀ (params : List (String × TypedValue)) (k : String) (v : TypedValue),
        List.lookup k params = some v →
        List.lookup k (extract_parameters params) = some (extractValue v)) ∧
    (∀ (v : TypedValue) (s : String), v.string_value = some s →
        extractValue v = Json.str s) ∧
    (∀ (v : TypedValue) (n : Int), v.string_value = none →
        v.number_value = some n → extractValue v = Json.num n) ∧
    (∀ (v : TypedValue) (b : Bool), v.string_value = none →
        v.number_value = none → v.bool_value = some b →
        extractValue v = Json.bool b) ∧
    (∀ (v : TypedValue) (st : List (String × Json)), v.string_value = none →
        v.number_value = none → v.bool_value = none → v.struct_value = some st →
        extractValue v = Json.obj st) ∧
    (∀ v : TypedValue, v.string_value = none → v.number_value = none →
        v.bool_value = none → v.struct_value = none →
        extractValue v = Json.str v.str_repr) := by
  refine ⟨lookup_extract_parameters, ?_, ?_, ?_, ?_, ?_⟩
  · intro v s h; simp [extractValue, h]
  · intro v n h1 h2; simp [extractValue, h1, h2]
  · intro v b h1 h2 h3; simp [extractValue, h1, h2, h3]
  · intro v st h1 h2 h3 h4; simp [extractValue, h1, h2, h3, h4]
  · intro v h1 h2 h3 h4; simp [extractValue, h1, h2, h3, h4]

/-- C2 witness: a typed value exposing both a string and a numeric
accessor extracts to its string value, both directly and through the map. -/
theorem C2_extraction_precedence_witness :
    extractValue ⟨some "s", some 3, none, none, "r"⟩ = Json.str "s" ∧
    List.lookup "a" (extract_parameters [("a", ⟨some "s", some 3, none, none, "r"⟩)]) =
      some (extractValue ⟨some "s", some 3, none, none, "r"⟩) :=
  ⟨C2_extraction_precedence.2.1 ⟨some "s", some 3, none, none, "r"⟩ "s" rfl,
   C2_extraction_precedence.1 [("a", ⟨some "s", some 3, none, none, "r"⟩)] "a"
     ⟨some "s", some 3, none, none, "r"⟩ rfl⟩

/-- C7: `_extract_parameters` returns the empty mapping on an absent or
empty input, and preserves every key of a non-empty input (each typed
value produces exactly one output entry; the function is total). -/
theorem C7_keys_preserved :
    extract_parameters [] = [] ∧
    (∀ (params : List (String × TypedValue)) (k : String),
        k ∈ params.map Prod.fst → k ∈ (extract_parameters params).map Prod.fst) := by
  refine ⟨rfl, ?_⟩
  intro params k h
  rw [keys_extract_parameters]
  exact h

/-- C7 witness: the key of a singleton input map survives extraction. -/
theorem C7_keys_preserved_witness :
    "a" ∈ (extract_parameters [("a", ⟨none, none, none, none, "x"⟩)]).map Prod.fst :=
  C7_keys_preserved.2 [("a", ⟨none, none, none, none, "x"⟩)] "a" (by simp)

/-- C3: `_process_response` reports `end_interaction = true` exactly when
some response message's string form contains the substring
`end_interaction` (whatever the message's kind), and a response with zero
messages yields the empty message list and `end_interaction = false`. -/
theorem C3_end_interaction_scan :
    (∀ resp : DetectIntentResponse,
        getField (process_response resp) "end_interaction" = some (Json.bool true) ↔
          ∃ msg ∈ resp.query_result.response_messages,
            strContains msg.str_repr "end_interaction" = true) ∧
    (∀ resp : DetectIntentResponse, resp.query_result.response_messages = [] →
        getField (process_response resp) "messages" = some (Json.arr []) ∧
        getField (process_response resp) "end_interaction" = some (Json.bool false)) := by
  constructor
  · intro resp
    have h : getField (process_response resp) "end_interaction" =
        some (Json.bool (resp.query_result.response_messages.any
          (fun msg => strContains msg.str_repr "end_interaction"))) := rfl
    rw [h]
    simp [List.any_eq_true]
  · intro resp h
    refine ⟨?_, ?_⟩
    · have h1 : getField (process_response resp) "messages" =
          some (Json.arr (resp.query_result.response_messages.filterMap
            process_message)) := rfl
      rw [h1, h]
      rfl
    · have h2 : getField (process_response resp) "end_interaction" =
          some (Json.bool (resp.query_result.response_messages.any
            (fun msg => strContains msg.str_repr "end_interaction"))) := rfl
      rw [h2, h]
      rfl

/-- C3 witness: a zero-message response yields `end_interaction = false`;
a response whose only message is payload-kind with `end_interaction` in
its string form yields `end_interaction = true`. -/
theorem C3_end_interaction_scan_witness :
    getField (process_response ⟨⟨[], ⟨none, 0⟩, [], "p", "t"⟩⟩) "end_interaction" =
      some (Json.bool false) ∧
    getField (process_response ⟨⟨[⟨none, some [("k", Json.str "v")],
        "payload mentions end_interaction here"⟩], ⟨none, 0⟩, [], "p", "t"⟩⟩)
        "end_interaction" =
      some (Json.bool true) :=
  ⟨(C3_end_interaction_scan.2 ⟨⟨[], ⟨none, 0⟩, [], "p", "t"⟩⟩ rfl).2,
   (C3_end_interaction_scan.1 _).mpr
     ⟨⟨none, some [("k", Json.str "v")], "payload mentions end_interaction here"⟩,
      List.Mem.head _, by decide⟩⟩

/-- C8: the normalization of `match_intent` emits one entry per candidate
in service order, with the candidate's intent display name (or the literal
`"No intent"` when no intent matched), the confidence copied verbatim, and
the parameters produced by `_extract_parameters`. -/
theorem C8_match_normalization (resp : MatchIntentResponse) :
    getField (match_intent_result resp) "matches" =
      some (Json.arr (resp.matches_list.map (fun m => Json.obj [
        ("intent", Json.str
          (match m.intent with
           | some i => i.display_name
           | none => "No intent")),
        ("confidence", Json.num m.confidence),
        ("parameters", Json.obj (extract_parameters m.parameters))]))) ∧
    getField (match_intent_result resp) "current_page" =
      some (Json.str resp.current_page_display_name) :=
  ⟨rfl, rfl⟩

/-- C6: every detection or matching tool called while the global client
handle is still `none` returns the explicit not-initialized error object
(a total function of its inputs: no exception, no blocking, no silent
default), whatever the remote call would have produced. -/
theorem C6_uninitialized_error :
    ∀ (text : String) (sid : Option String) (fresh : String)
      (r1 r2 : Except String DetectIntentResponse)
      (rm : Except String MatchIntentResponse)
      (file_read dec : Except String String),
      detect_intent_tool none text sid fresh r1 =
        errorJson "Dialogflow CX client not initialized. Call initialize_dialogflow first." ∧
      match_intent_tool none text sid fresh rm =
        errorJson "Dialogflow CX client not initialized. Call initialize_dialogflow first." ∧
      detect_intent_from_audio_tool none sid fresh file_read r1 =
        errorJson "Dialogflow CX client not initialized. Call initialize_dialogflow first." ∧
      detect_intent_from_base64_tool none sid fresh dec r2 =
        errorJson "Dialogflow CX client not initialized. Call initialize_dialogflow first." ∧
      getField (errorJson
          "Dialogflow CX client not initialized. Call initialize_dialogflow first.") "error" =
        some (Json.str
          "Dialogflow CX client not initialized. Call initialize_dialogflow first.") :=
  fun _ _ _ _ _ _ _ _ => ⟨rfl, rfl, rfl, rfl, rfl⟩

/-- C9: in both message-extraction paths the text branch is checked first:
a backend response message with both `text` and `payload` truthy is
classified as text, and a webhook-request message object carrying both a
well-formed `"text"` field and a `"payload"` field is classified as text. -/
theorem C9_text_precedence :
    (∀ (msg : ResponseMessage) (lines : List String) (p : List (String × Json)),
        msg.text = some lines → msg.payload = some p →
        process_message msg = some (Json.obj [("type", Json.str "text"),
          ("content", Json.str (String.intercalate "\n" lines))])) ∧
    (∀ (kvs tkvs : List (String × Json)) (content p : Json),
        List.lookup "text" kvs = some (Json.obj tkvs) →
        List.lookup "text" tkvs = some content →
        List.lookup "payload" kvs = some p →
        parseMessage (Json.obj kvs) =
          Except.ok (some (Json.obj [("type", Json.str "text"),
            ("content", content)]))) := by
  constructor
  · intro msg lines p h1 h2
    simp [process_message, h1]
  · intro kvs tkvs content p h1 h2 h3
    simp [parseMessage, pyContainsKey, pyIndex, h1, h2, Bind.bind, Except.bind]

/-- C9 witness: concrete messages carrying both shapes come out tagged
text in both paths. -/
theorem C9_text_precedence_witness :
    process_message ⟨some ["hi"], some [("k", Json.null)], "r"⟩ =
      some (Json.obj [("type", Json.str "text"), ("content", Json.str "hi")]) ∧
    parseMessage (Json.obj [("text", Json.obj [("text", Json.str "c")]),
        ("payload", Json.null)]) =
      Except.ok (some (Json.obj [("type", Json.str "text"),
        ("content", Json.str "c")])) :=
  ⟨C9_text_precedence.1 ⟨some ["hi"], some [("k", Json.null)], "r"⟩ ["hi"]
     [("k", Json.null)] rfl rfl,
   C9_text_precedence.2 [("text", Json.obj [("text", Json.str "c")]),
     ("payload", Json.null)] [("text", Json.str "c")] (Json.str "c") Json.null
     rfl rfl rfl⟩

/-- On success, `parse_webhook_body` always returns the six-field result
object with `raw_request` holding the parsed input. -/
theorem parse_webhook_body_ok_shape (j r : Json)
    (h : parse_webhook_body j = Except.ok r) :
    ∃ sid iname params page msgs, r = Json.obj [("session_id", sid),
      ("intent_name", iname), ("parameters", params), ("current_page", page),
      ("messages", Json.arr msgs), ("raw_request", j)] := by
  unfold parse_webhook_body at h
  cases h1 : pyGet j "sessionInfo" (Json.obj []) with
  | error e => rw [h1] at h; simp [Bind.bind, Except.bind] at h
  | ok session =>
  rw [h1] at h; simp only [Bind.bind, Except.bind] at h
  cases h2 : pyGet j "intentInfo" (Json.obj []) with
  | error e => rw [h2] at h; simp [Except.bind] at h
  | ok intent =>
  rw [h2] at h; simp only [Except.bind] at h
  cases h3 : pyGet session "parameters" (Json.obj []) with
  | error e => rw [h3] at h; simp [Except.bind] at h
  | ok params =>
  rw [h3] at h; simp only [Except.bind] at h
  cases h4 : pyGet j "pageInfo" (Json.obj []) with
  | error e => rw [h4] at h; simp [Except.bind] at h
  | ok page_info =>
  rw [h4] at h; simp only [Except.bind] at h
  cases h5 : pyGet page_info "displayName" (Json.str "") with
  | error e => rw [h5] at h; simp [Except.bind] at h
  | ok current_page =>
  rw [h5] at h; simp only [Except.bind] at h
  cases h6 : pyGet j "messages" (Json.arr []) with
  | error e => rw [h6] at h; simp [Except.bind] at h
  | ok msgs_src =>
  rw [h6] at h; simp only [Except.bind] at h
  cases h7 : iterElems msgs_src with
  | none => rw [h7] at h; simp [Except.bind] at h
  | some elems =>
  rw [h7] at h; simp only [Except.bind] at h
  cases h8 : parseMessages elems with
  | error e => rw [h8] at h; simp [Except.bind] at h
  | ok msgs =>
  rw [h8] at h; simp only [Except.bind] at h
  cases h9 : pyGet session "session" (Json.str "") with
  | error e => rw [h9] at h; simp [Except.bind] at h
  | ok session_id =>
  rw [h9] at h; simp only [Except.bind] at h
  cases h10 : pyGet intent "displayName" (Json.str "") with
  | error e => rw [h10] at h; simp [Except.bind] at h
  | ok intent_name =>
  rw [h10] at h; simp only [Except.bind, Except.ok.injEq] at h
  exact ⟨session_id, intent_name, params, current_page, msgs, h.symm⟩

/-- C5 counterexample: the string `"5"` is valid JSON (`json.loads`
returns the number `5`), but `parse_webhook_request` on it returns an
error object (`5 .get(...)` raises `AttributeError`, caught by the
`except` block) rather than the extracted fields. -/
theorem C5_counterexample :
    parse_webhook_request (some (Json.num 5)) =
      Json.obj [("error",
        Json.str "Error parsing webhook request: AttributeError")] := rfl

/-- C5 (amended): an input that is not valid JSON yields the parse-error
object (an `"error"` field, never an exception); any valid JSON input
yields either an error-field object or the six extracted fields carrying
the full parsed value as `raw_request`; and a valid JSON object whose
`sessionInfo`/`intentInfo`/`pageInfo` fields default or are objects and
whose `messages` field defaults or is a list whose message loop completes
yields exactly the extracted fields with their defaults. -/
theorem C5_parse_behavior :
    parse_webhook_request none =
      errorJson "Error parsing webhook request: JSONDecodeError" ∧
    (∀ j : Json, (∃ e, parse_webhook_request (some j) = errorJson e) ∨
      ∃ sid iname params page msgs, parse_webhook_request (some j) =
        Json.obj [("session_id", sid), ("intent_name", iname),
          ("parameters", params), ("current_page", page),
          ("messages", Json.arr msgs), ("raw_request", j)]) ∧
    (∀ (kvs sessionObj intentObj pageObj : List (String × Json))
       (ms outMsgs : List Json),
        (List.lookup "sessionInfo" kvs).getD (Json.obj []) = Json.obj sessionObj →
        (List.lookup "intentInfo" kvs).getD (Json.obj []) = Json.obj intentObj →
        (List.lookup "pageInfo" kvs).getD (Json.obj []) = Json.obj pageObj →
        (List.lookup "messages" kvs).getD (Json.arr []) = Json.arr ms →
        parseMessages ms = Except.ok outMsgs →
        parse_webhook_request (some (Json.obj kvs)) =
          Json.obj [
            ("session_id", (List.lookup "session" sessionObj).getD (Json.str "")),
            ("intent_name", (List.lookup "displayName" intentObj).getD (Json.str "")),
            ("parameters", (List.lookup "parameters" sessionObj).getD (Json.obj [])),
            ("current_page", (List.lookup "displayName" pageObj).getD (Json.str "")),
            ("messages", Json.arr outMsgs),
            ("raw_request", Json.obj kvs)]) := by
  refine ⟨rfl, ?_, ?_⟩
  · intro j
    cases hb : parse_webhook_body j with
    | error e =>
        exact Or.inl ⟨"Error parsing webhook request: " ++ e,
          by simp [parse_webhook_request, hb]⟩
    | ok r =>
        obtain ⟨sid, iname, params, page, msgs, hr⟩ :=
          parse_webhook_body_ok_shape j r hb
        exact Or.inr ⟨sid, iname, params, page, msgs,
          by simp [parse_webhook_request, hb, hr]⟩
  · intro kvs sessionObj intentObj pageObj ms outMsgs hs hi hp hm hloop
    simp [parse_webhook_request, parse_webhook_body, pyGet, hs, hi, hp, hm,
      hloop, iterElems, Bind.bind, Except.bind]

/-- C5 witness: a well-shaped webhook request object yields session id
`s1`, its parameters map, an empty current page, no messages, and the raw
request. -/
theorem C5_parse_behavior_witness :
    parse_webhook_request (some (Json.obj [("sessionInfo", Json.obj
        [("session", Json.str "s1"), ("parameters", Json.obj [("a", Json.num 1)])])])) =
      Json.obj [
        ("session_id", Json.str "s1"),
        ("intent_name", Json.str ""),
        ("parameters", Json.obj [("a", Json.num 1)]),
        ("current_page", Json.str ""),
        ("messages", Json.arr []),
        ("raw_request", Json.obj [("sessionInfo", Json.obj
          [("session", Json.str "s1"),
           ("parameters", Json.obj [("a", Json.num 1)])])])] :=
  C5_parse_behavior.2.2
    [("sessionInfo", Json.obj [("session", Json.str "s1"),
      ("parameters", Json.obj [("a", Json.num 1)])])]
    [("session", Json.str "s1"), ("parameters", Json.obj [("a", Json.num 1)])]
    [] [] [] [] rfl rfl rfl rfl rfl
